import Mathlib

/-!
Shallow embedding of the language-change UI state machine of this
repository: the `LanguageSelector` toggle control, the
`LanguageMorphingTitle` animated title, and the `PageTransition`
route-change wrapper.  Stateful component code is embedded as explicit
state records with step functions: one function per trigger
(click, language-change detection, timer fire, unmount), each returning
the successor state together with the externally observable effects
(emitted events, scheduled timers, storage writes).
-/

namespace Portfolio

/-! ### LanguageSelector (src/components/LanguageSelector/LanguageSelector.tsx) -/

/-- `LANGUAGE_CHANGE_COOLDOWN = 3000` ms, the minimum time between accepted
language changes (LanguageSelector.tsx line 71). -/
def LANGUAGE_CHANGE_COOLDOWN : ℕ := 3000

/-- The `initiateLanguageChange` CustomEvent dispatched on `window`
(LanguageSelector.tsx lines 132-138): event type plus its `detail` payload. -/
structure LangChangeEvent where
  eventType : String
  previousLanguage : String
  newLanguage : String
deriving Repr, DecidableEq

/-- The React state of `LanguageSelector`: `currentLang`,
`isChangingLanguage` and `lastChangeTime` (lines 78-83).  Times are
millisecond timestamps as returned by `Date.now()`. -/
structure LSState where
  currentLang : String
  isChangingLanguage : Bool
  lastChangeTime : ℕ
deriving Repr, DecidableEq

/-- `toggleLanguage` (LanguageSelector.tsx lines 115-142) as a pure step
function: given the state and the current time, it returns the successor
state together with the list of events dispatched during the call. -/
def toggleLanguage (s : LSState) (now : ℕ) : LSState × List LangChangeEvent :=
  if s.isChangingLanguage || decide (now - s.lastChangeTime < LANGUAGE_CHANGE_COOLDOWN) then
    (s, [])
  else
    let previousLang := s.currentLang
    let newLang := if s.currentLang == "en" then "es" else "en"
    ({ currentLang := newLang, isChangingLanguage := true, lastChangeTime := now },
     [{ eventType := "initiateLanguageChange",
        previousLanguage := previousLang,
        newLanguage := newLang }])

/-- Mapping of an i18n locale string to the displayed two-letter code
(`i18n.language?.startsWith('es') ? 'es' : 'en'`, lines 78 and 98). -/
def langFromI18n (language : String) : String :=
  if language.startsWith "es" then "es" else "en"

/-- Observable outcome of one run of the locale-sync effect
(LanguageSelector.tsx lines 97-113): the updated state, the delay of the
scheduled timer that clears `isChangingLanguage`, and the
key/value pair written to `localStorage`. -/
structure SyncEffectOutcome where
  state : LSState
  clearTimerDelay : ℕ
  storageWrite : String × String
deriving Repr, DecidableEq

/-- Body of the locale-sync effect (lines 97-113): re-derive the two-letter
code, update `currentLang` when it differs, schedule a 1000 ms timer that
will clear `isChangingLanguage`, and write `i18n.language` to
`localStorage` under the key `i18nextLng`. -/
def syncLanguageEffect (s : LSState) (i18nLanguage : String) : SyncEffectOutcome :=
  let lang := langFromI18n i18nLanguage
  { state := if s.currentLang ≠ lang then { s with currentLang := lang } else s
    clearTimerDelay := 1000
    storageWrite := ("i18nextLng", i18nLanguage) }

/-- Firing of the effect's scheduled timer (lines 105-107): it sets
`isChangingLanguage` to `false`. -/
def syncTimerFire (s : LSState) : LSState :=
  { s with isChangingLanguage := false }

/-- React re-runs the effect exactly when its dependency array
`[i18n.language, currentLang]` (line 113) differs from the previous
render's one. -/
def syncEffectRuns (prevDeps currDeps : String × String) : Bool :=
  prevDeps != currDeps

/-! ### LanguageMorphingTitle (src/unnamed/part_000) -/

/-- `MIN_ANIMATION_DURATION = 2500` ms (part_000 line 50). -/
def MIN_ANIMATION_DURATION : ℕ := 2500

/-- The props of `LanguageMorphingTitle` relevant to the state machine:
the translation key and the `morphTime` / `cooldownTime` durations in
seconds (defaults 1 and 0.25). -/
structure LMTConfig where
  translationKey : String
  morphTime : ℚ
  cooldownTime : ℚ
deriving Repr, DecidableEq

/-- `getTotalAnimationDuration` (part_000 lines 85-89): the completion
delay in ms, `(morphTime + cooldownTime) * 1000 + 500` clamped from below
by `MIN_ANIMATION_DURATION`. -/
def getTotalAnimationDuration (cfg : LMTConfig) : ℚ :=
  max ((cfg.morphTime + cfg.cooldownTime) * 1000 + 500) (MIN_ANIMATION_DURATION : ℚ)

/-- The state of one `LanguageMorphingTitle` instance: the React state
(`shouldMorph`, `texts`) and the refs (`previousLanguageRef`,
`animationTimeoutRef`, `initializedRef`, `isChangingRef`,
`lastChangeTimeRef`).  `pendingTimers` records the timer ids currently
scheduled in the environment on behalf of this instance (`setTimeout`
appends, `clearTimeout` and callback delivery remove), so that "at most
one pending completion callback" is a statement about the environment,
not only about the ref. -/
structure LMTState where
  shouldMorph : Bool
  texts : List String
  previousLanguage : String
  animationTimeout : Option ℕ
  pendingTimers : List ℕ
  initialized : Bool
  isChanging : Bool
  lastChangeTime : ℕ
deriving Repr, DecidableEq

/-- Clearing of the pending completion timer, as done both inside the
change effect (part_000 lines 130-133) and in the unmount cleanup (lines
163-166): `clearTimeout` removes the timer from the environment and the
ref is nulled. -/
def clearAnimationTimeout (s : LMTState) : LMTState :=
  match s.animationTimeout with
  | some i => { s with pendingTimers := s.pendingTimers.erase i, animationTimeout := none }
  | none => s

/-- `setTimeout` with a fresh id (part_000 line 139): the new timer becomes
pending in the environment and the ref holds its handle. -/
def scheduleAnimationTimeout (s : LMTState) (freshId : ℕ) : LMTState :=
  { s with pendingTimers := s.pendingTimers ++ [freshId], animationTimeout := some freshId }

/-- The initialization effect (part_000 lines 75-82): on the first run it
resolves the current text and fills both slots of the display pair.
`t key locale` is the external i18next lookup; `language` is the current
`i18n.language` (the `t` of the component resolves in it by default). -/
def initEffect (t : String → String → String) (cfg : LMTConfig)
    (s : LMTState) (language : String) : LMTState :=
  if s.initialized then s
  else
    { s with texts := [t cfg.translationKey language, t cfg.translationKey language],
             initialized := true }

/-- The language-change detection effect (part_000 lines 92-158) as a pure
step function.  Inputs: the lookup `t`, the props, the state, the current
`i18n.language`, `Date.now()`, and the id `setTimeout` would allocate.
Output: the successor state and, when a completion timer was scheduled,
its delay in ms.  The elapsed-time comparison against
`MIN_ANIMATION_DURATION` (lines 105-110) only produces a console log and
does not alter control flow, so it leaves no trace here. -/
def languageChangeEffect (t : String → String → String) (cfg : LMTConfig)
    (s : LMTState) (language : String) (now : ℕ) (freshId : ℕ) :
    LMTState × Option ℚ :=
  if s.isChanging then (s, none)
  else if s.previousLanguage ≠ language then
    let s1 := { s with isChanging := true, lastChangeTime := now }
    let oldText := t cfg.translationKey s.previousLanguage
    let newText := t cfg.translationKey language
    if oldText ≠ newText then
      let s2 := { s1 with texts := [oldText, newText], shouldMorph := true }
      let s3 := scheduleAnimationTimeout (clearAnimationTimeout s2) freshId
      ({ s3 with previousLanguage := language }, some (getTotalAnimationDuration cfg))
    else
      ({ s1 with isChanging := false, previousLanguage := language }, none)
  else (s, none)

/-- Delivery of the scheduled completion callback (part_000 lines
139-149): it can only happen while the instance still holds a pending
timer (`none` means no callback can be delivered).  The callback exits the
morph, clears the in-flight guard, nulls the ref, and sets both display
slots to the text resolved in the locale current at fire time. -/
def animationTimerFire (t : String → String → String) (cfg : LMTConfig)
    (s : LMTState) (language : String) : Option LMTState :=
  match s.animationTimeout with
  | none => none
  | some i =>
    let finalText := t cfg.translationKey language
    some { s with shouldMorph := false, isChanging := false,
                  animationTimeout := none,
                  pendingTimers := s.pendingTimers.erase i,
                  texts := [finalText, finalText] }

/-- The unmount cleanup (part_000 lines 161-168): cancel and null the
pending completion timer, touching nothing else. -/
def unmountCleanup (s : LMTState) : LMTState :=
  clearAnimationTimeout s

/-- The timer bookkeeping invariant of one instance: the environment holds
exactly the timer the ref points to — in particular at most one completion
callback is pending. -/
def timerRefInv (s : LMTState) : Prop :=
  match s.animationTimeout with
  | some i => s.pendingTimers = [i]
  | none => s.pendingTimers = []

instance (s : LMTState) : Decidable (timerRefInv s) := by
  unfold timerRefInv
  cases s.animationTimeout <;> exact inferInstanceAs (Decidable _)

/-- A sample i18next catalog used by witnesses: the key "title" resolves
to "Hello" in English and "Hola" in Spanish. -/
def tSample (key : String) (locale : String) : String :=
  if key == "title" then (if locale == "es" then "Hola" else "Hello") else key

/-- A sample catalog in which the two locales resolve identically. -/
def tConst (key : String) (_locale : String) : String := key

/-- The sample props: key "title" with the default `morphTime = 1`,
`cooldownTime = 0.25`. -/
def cfgSample : LMTConfig :=
  { translationKey := "title", morphTime := 1, cooldownTime := 1/4 }

/-! ### PageTransition (src/components/PageTransition/PageTransition.tsx) -/

/-- An animation target as passed to framer-motion: the `opacity` and `y`
values of the `initial` / `animate` / `exit` props
(PageTransition.tsx lines 28-30). -/
structure MotionTarget where
  opacity : ℚ
  y : ℚ
deriving Repr, DecidableEq

/-- The `mode` prop of `AnimatePresence`. -/
inductive PresenceMode where
  | sync
  | wait
  | popLayout
deriving Repr, DecidableEq

/-- What `PageTransition` passes to `AnimatePresence` and its single keyed
`PageContainer` child (PageTransition.tsx lines 24-39): the presence mode,
the child key, the three animation targets and the tween duration. -/
structure PageTransitionConfig where
  mode : PresenceMode
  childKey : String
  initialTarget : MotionTarget
  animateTarget : MotionTarget
  exitTarget : MotionTarget
  durationSeconds : ℚ
deriving Repr, DecidableEq

/-- `PageTransition` (PageTransition.tsx lines 21-41) as a function of the
current navigation path (`useLocation().pathname`): an `AnimatePresence`
in `"wait"` mode whose single child is keyed by the pathname. -/
def PageTransition (pathname : String) : PageTransitionConfig :=
  { mode := .wait
    childKey := pathname
    initialTarget := { opacity := 0, y := 20 }
    animateTarget := { opacity := 1, y := 0 }
    exitTarget := { opacity := 0, y := -20 }
    durationSeconds := 1/2 }

/-- Modelled from the spec: the sequencing contract of framer-motion's
`AnimatePresence`, an external collaborator not part of this repository.
A phase is a settled child, an outgoing child exit-animating, or an
incoming child enter-animating. -/
inductive PresencePhase where
  | settled (key : String)
  | exiting (oldKey newKey : String)
  | entering (key : String)
deriving Repr, DecidableEq

/-- Modelled from the spec: the children mounted (visible) in a phase; in
`wait` mode the incoming child is not mounted while the outgoing one
exit-animates. -/
def presenceVisible : PresencePhase → List String
  | .settled k => [k]
  | .exiting oldKey _ => [oldKey]
  | .entering k => [k]

/-- Modelled from the spec: reaction of `AnimatePresence` to a change of
its child's key.  In `wait` mode the outgoing child starts its exit
animation and the incoming child is not mounted until that exit completes;
in the other modes the incoming child mounts immediately (overlapping). -/
def presenceKeyChange (mode : PresenceMode) (p : PresencePhase) (newKey : String) :
    PresencePhase :=
  match p with
  | .settled oldKey =>
    if oldKey = newKey then p
    else
      match mode with
      | .wait => .exiting oldKey newKey
      | _ => .entering newKey
  | .exiting oldKey _ => .exiting oldKey newKey
  | .entering oldKey =>
    if oldKey = newKey then p
    else
      match mode with
      | .wait => .exiting oldKey newKey
      | _ => .entering newKey

/-- Modelled from the spec: completion of the exit animation unmounts the
outgoing child; only then is the incoming one mounted and enter-animated. -/
def presenceExitComplete : PresencePhase → PresencePhase
  | .exiting _ newKey => .entering newKey
  | p => p

/-- Modelled from the spec: completion of the enter animation. -/
def presenceEnterComplete : PresencePhase → PresencePhase
  | .entering k => .settled k
  | p => p

end Portfolio

namespace Portfolio

/-- C1: a call to `toggleLanguage` while `isChangingLanguage` is true, or
within 3000 ms of `lastChangeTime`, is a no-op: the state (displayed
language, in-flight flag, timestamp) is unchanged and no event is
dispatched. -/
theorem toggleLanguage_cooldown_noop (s : LSState) (now : ℕ)
    (h : s.isChangingLanguage = true ∨ now - s.lastChangeTime < LANGUAGE_CHANGE_COOLDOWN) :
    toggleLanguage s now = (s, []) := by
  unfold toggleLanguage
  rcases h with h | h
  · simp [h]
  · simp [h]

theorem toggleLanguage_cooldown_noop_witness :
    ((⟨"en", false, 1000⟩ : LSState).isChangingLanguage = true ∨
      2500 - (⟨"en", false, 1000⟩ : LSState).lastChangeTime < LANGUAGE_CHANGE_COOLDOWN) ∧
    toggleLanguage ⟨"en", false, 1000⟩ 2500 = (⟨"en", false, 1000⟩, []) :=
  ⟨Or.inr (by decide),
   toggleLanguage_cooldown_noop ⟨"en", false, 1000⟩ 2500 (Or.inr (by decide))⟩

/-- C6: an accepted call to `toggleLanguage` (not changing, cooldown
elapsed, current language in {"en","es"}) flips `currentLang` to the other
member of {"en","es"} in the same synchronous call, sets
`isChangingLanguage := true` and `lastChangeTime := now`, and dispatches
exactly one `initiateLanguageChange` event carrying the old language as
`previousLanguage` and the new one as `newLanguage`. -/
theorem toggleLanguage_accept (s : LSState) (now : ℕ)
    (hchg : s.isChangingLanguage = false)
    (hcool : ¬ now - s.lastChangeTime < LANGUAGE_CHANGE_COOLDOWN)
    (hlang : s.currentLang = "en" ∨ s.currentLang = "es") :
    (toggleLanguage s now).1.isChangingLanguage = true ∧
    (toggleLanguage s now).1.lastChangeTime = now ∧
    ((toggleLanguage s now).1.currentLang = "en" ∨
      (toggleLanguage s now).1.currentLang = "es") ∧
    (toggleLanguage s now).1.currentLang ≠ s.currentLang ∧
    (toggleLanguage s now).2 =
      [{ eventType := "initiateLanguageChange",
         previousLanguage := s.currentLang,
         newLanguage := (toggleLanguage s now).1.currentLang }] := by
  unfold toggleLanguage
  rcases hlang with h | h <;>
    simp [hchg, hcool, h]

theorem toggleLanguage_accept_witness :
    ((⟨"en", false, 0⟩ : LSState).isChangingLanguage = false ∧
      ¬ 5000 - (⟨"en", false, 0⟩ : LSState).lastChangeTime < LANGUAGE_CHANGE_COOLDOWN ∧
      ((⟨"en", false, 0⟩ : LSState).currentLang = "en" ∨
        (⟨"en", false, 0⟩ : LSState).currentLang = "es")) ∧
    ((toggleLanguage ⟨"en", false, 0⟩ 5000).1.isChangingLanguage = true ∧
      (toggleLanguage ⟨"en", false, 0⟩ 5000).1.lastChangeTime = 5000 ∧
      ((toggleLanguage ⟨"en", false, 0⟩ 5000).1.currentLang = "en" ∨
        (toggleLanguage ⟨"en", false, 0⟩ 5000).1.currentLang = "es") ∧
      (toggleLanguage ⟨"en", false, 0⟩ 5000).1.currentLang ≠
        (⟨"en", false, 0⟩ : LSState).currentLang ∧
      (toggleLanguage ⟨"en", false, 0⟩ 5000).2 =
        [{ eventType := "initiateLanguageChange",
           previousLanguage := (⟨"en", false, 0⟩ : LSState).currentLang,
           newLanguage := (toggleLanguage ⟨"en", false, 0⟩ 5000).1.currentLang }]) :=
  ⟨⟨rfl, by decide, Or.inl rfl⟩,
   toggleLanguage_accept ⟨"en", false, 0⟩ 5000 rfl (by decide) (Or.inl rfl)⟩

/-- C7 counterexample: the clearing of `isChangingLanguage` does NOT happen
only on external locale changes.  Starting from an idle state with locale
"en", an accepted `toggleLanguage` at t = 5000 synchronously changes the
local `currentLang` to "es" while `i18n.language` is still "en"; the
dependency array `[i18n.language, currentLang]` therefore differs from the
previous render's, the sync effect runs, and its 1000 ms timer clears
`isChangingLanguage` — with no external locale change at all. -/
theorem syncEffect_clears_without_external_change :
    (toggleLanguage ⟨"en", false, 0⟩ 5000).1.isChangingLanguage = true ∧
    (toggleLanguage ⟨"en", false, 0⟩ 5000).1.currentLang = "es" ∧
    syncEffectRuns ("en", "en")
      ("en", (toggleLanguage ⟨"en", false, 0⟩ 5000).1.currentLang) = true ∧
    (syncLanguageEffect (toggleLanguage ⟨"en", false, 0⟩ 5000).1 "en").clearTimerDelay
      = 1000 ∧
    (syncTimerFire
        (syncLanguageEffect (toggleLanguage ⟨"en", false, 0⟩ 5000).1 "en").state
      ).isChangingLanguage = false := by
  refine ⟨rfl, rfl, by decide, rfl, rfl⟩

/-- C7 as amended: the sync effect runs exactly when the dependency pair
(`i18n.language`, `currentLang`) changed since the previous render — so in
particular whenever the external locale value changes — and every run
schedules a fixed 1000 ms timer whose firing clears `isChangingLanguage`
to false, and writes the new `i18n.language` to `localStorage` under the
key `i18nextLng`. -/
theorem syncLanguageEffect_spec (prevDeps currDeps : String × String)
    (s : LSState) (i18nLanguage : String) :
    (syncEffectRuns prevDeps currDeps = true ↔ prevDeps ≠ currDeps) ∧
    (syncLanguageEffect s i18nLanguage).clearTimerDelay = 1000 ∧
    (syncTimerFire (syncLanguageEffect s i18nLanguage).state).isChangingLanguage
      = false ∧
    (syncLanguageEffect s i18nLanguage).storageWrite = ("i18nextLng", i18nLanguage) := by
  refine ⟨?_, rfl, rfl, rfl⟩
  simp [syncEffectRuns, bne_iff_ne]

@[simp] theorem clearAnimationTimeout_shouldMorph (s : LMTState) :
    (clearAnimationTimeout s).shouldMorph = s.shouldMorph := by
  unfold clearAnimationTimeout
  cases hm : s.animationTimeout <;> simp

@[simp] theorem clearAnimationTimeout_texts (s : LMTState) :
    (clearAnimationTimeout s).texts = s.texts := by
  unfold clearAnimationTimeout
  cases hm : s.animationTimeout <;> simp

@[simp] theorem clearAnimationTimeout_previousLanguage (s : LMTState) :
    (clearAnimationTimeout s).previousLanguage = s.previousLanguage := by
  unfold clearAnimationTimeout
  cases hm : s.animationTimeout <;> simp

@[simp] theorem clearAnimationTimeout_initialized (s : LMTState) :
    (clearAnimationTimeout s).initialized = s.initialized := by
  unfold clearAnimationTimeout
  cases hm : s.animationTimeout <;> simp

@[simp] theorem clearAnimationTimeout_isChanging (s : LMTState) :
    (clearAnimationTimeout s).isChanging = s.isChanging := by
  unfold clearAnimationTimeout
  cases hm : s.animationTimeout <;> simp

@[simp] theorem clearAnimationTimeout_lastChangeTime (s : LMTState) :
    (clearAnimationTimeout s).lastChangeTime = s.lastChangeTime := by
  unfold clearAnimationTimeout
  cases hm : s.animationTimeout <;> simp

/-- Under the timer bookkeeping invariant, clearing empties the pending
set and nulls the ref. -/
theorem clearAnimationTimeout_of_inv (s : LMTState) (h : timerRefInv s) :
    (clearAnimationTimeout s).pendingTimers = [] ∧
    (clearAnimationTimeout s).animationTimeout = none := by
  unfold timerRefInv at h
  unfold clearAnimationTimeout
  cases hmat : s.animationTimeout with
  | none => rw [hmat] at h; exact ⟨h, hmat⟩
  | some i => rw [hmat] at h; simp [h]

/-- C5: a language-change detection arriving while `isChangingRef` is true
returns early: the state is unchanged in every component and no completion
timer is scheduled. -/
theorem languageChangeEffect_inflight_noop (t : String → String → String)
    (cfg : LMTConfig) (s : LMTState) (language : String) (now freshId : ℕ)
    (h : s.isChanging = true) :
    languageChangeEffect t cfg s language now freshId = (s, none) := by
  unfold languageChangeEffect
  simp [h]

theorem languageChangeEffect_inflight_noop_witness :
    (⟨true, ["Hello", "Hola"], "en", some 3, [3], true, true, 1000⟩ : LMTState).isChanging
        = true ∧
    languageChangeEffect tSample cfgSample
        ⟨true, ["Hello", "Hola"], "en", some 3, [3], true, true, 1000⟩ "es" 9000 7 =
      (⟨true, ["Hello", "Hola"], "en", some 3, [3], true, true, 1000⟩, none) :=
  ⟨rfl,
   languageChangeEffect_inflight_noop tSample cfgSample
     ⟨true, ["Hello", "Hola"], "en", some 3, [3], true, true, 1000⟩ "es" 9000 7 rfl⟩

/-- C2 counterexample: a language-change detection arriving only 500 ms
after the last accepted change (well under `MIN_ANIMATION_DURATION`) is
NOT rejected — the code only logs.  With the catalog `tSample`, the change
from "en" to "es" at t = 1500 after a change at t = 1000 is accepted: the
state changes, the morph starts, and a completion timer is scheduled. -/
theorem lmt_tooFrequent_accepted :
    1500 - (⟨false, ["Hello", "Hello"], "en", none, [], true, false, 1000⟩ :
        LMTState).lastChangeTime < MIN_ANIMATION_DURATION ∧
    (⟨false, ["Hello", "Hello"], "en", none, [], true, false, 1000⟩ :
        LMTState).isChanging = false ∧
    (languageChangeEffect tSample cfgSample
        ⟨false, ["Hello", "Hello"], "en", none, [], true, false, 1000⟩
        "es" 1500 7).1 ≠
      ⟨false, ["Hello", "Hello"], "en", none, [], true, false, 1000⟩ ∧
    (languageChangeEffect tSample cfgSample
        ⟨false, ["Hello", "Hello"], "en", none, [], true, false, 1000⟩
        "es" 1500 7).1.shouldMorph = true ∧
    (languageChangeEffect tSample cfgSample
        ⟨false, ["Hello", "Hello"], "en", none, [], true, false, 1000⟩
        "es" 1500 7).2 ≠ none := by
  refine ⟨by decide, rfl, by decide, rfl, by decide⟩

/-- C2 as amended: a too-frequent language-change detection (elapsed time
since the last accepted change below `MIN_ANIMATION_DURATION`) is only
logged; provided the in-flight guard is clear, it is accepted and
processed exactly like any other change — here shown for differing
resolved texts: the morph starts, the guard and timestamp are taken, and a
completion timer is scheduled. -/
theorem lmt_tooFrequent_still_processed (t : String → String → String)
    (cfg : LMTConfig) (s : LMTState) (language : String) (now freshId : ℕ)
    (_hfast : now - s.lastChangeTime < MIN_ANIMATION_DURATION)
    (hchg : s.isChanging = false)
    (hne : s.previousLanguage ≠ language)
    (htxt : t cfg.translationKey s.previousLanguage ≠ t cfg.translationKey language) :
    (languageChangeEffect t cfg s language now freshId).1.shouldMorph = true ∧
    (languageChangeEffect t cfg s language now freshId).1.isChanging = true ∧
    (languageChangeEffect t cfg s language now freshId).1.lastChangeTime = now ∧
    (languageChangeEffect t cfg s language now freshId).2 =
      some (getTotalAnimationDuration cfg) := by
  unfold languageChangeEffect
  simp [hchg, hne, htxt, scheduleAnimationTimeout]

theorem lmt_tooFrequent_still_processed_witness :
    (1500 - (⟨false, ["Hello", "Hello"], "en", none, [], true, false, 1000⟩ :
        LMTState).lastChangeTime < MIN_ANIMATION_DURATION ∧
      (⟨false, ["Hello", "Hello"], "en", none, [], true, false, 1000⟩ :
        LMTState).isChanging = false ∧
      (⟨false, ["Hello", "Hello"], "en", none, [], true, false, 1000⟩ :
        LMTState).previousLanguage ≠ "es" ∧
      tSample cfgSample.translationKey
          (⟨false, ["Hello", "Hello"], "en", none, [], true, false, 1000⟩ :
            LMTState).previousLanguage ≠
        tSample cfgSample.translationKey "es") ∧
    ((languageChangeEffect tSample cfgSample
        ⟨false, ["Hello", "Hello"], "en", none, [], true, false, 1000⟩
        "es" 1500 7).1.shouldMorph = true ∧
      (languageChangeEffect tSample cfgSample
        ⟨false, ["Hello", "Hello"], "en", none, [], true, false, 1000⟩
        "es" 1500 7).1.isChanging = true ∧
      (languageChangeEffect tSample cfgSample
        ⟨false, ["Hello", "Hello"], "en", none, [], true, false, 1000⟩
        "es" 1500 7).1.lastChangeTime = 1500 ∧
      (languageChangeEffect tSample cfgSample
        ⟨false, ["Hello", "Hello"], "en", none, [], true, false, 1000⟩
        "es" 1500 7).2 = some (getTotalAnimationDuration cfgSample)) :=
  ⟨⟨by decide, rfl, by decide, by decide⟩,
   lmt_tooFrequent_still_processed tSample cfgSample
     ⟨false, ["Hello", "Hello"], "en", none, [], true, false, 1000⟩
     "es" 1500 7 (by decide) rfl (by decide) (by decide)⟩

/-- C3: an accepted language change with differing resolved texts sets the
display pair to (oldText, newText), enters Morphing, and schedules the
completion timer for exactly `max((morphTime + cooldownTime)*1000 + 500,
2500)` ms; upon delivery of that timer the component leaves Morphing, the
in-flight guard clears, the timer ref nulls, and both display slots hold
the text resolved in the locale current at fire time. -/
theorem lmt_morph_cycle (t : String → String → String)
    (cfg : LMTConfig) (s : LMTState) (language : String) (now freshId : ℕ)
    (hchg : s.isChanging = false)
    (hne : s.previousLanguage ≠ language)
    (htxt : t cfg.translationKey s.previousLanguage ≠ t cfg.translationKey language) :
    (languageChangeEffect t cfg s language now freshId).1.texts =
      [t cfg.translationKey s.previousLanguage, t cfg.translationKey language] ∧
    (languageChangeEffect t cfg s language now freshId).1.shouldMorph = true ∧
    (languageChangeEffect t cfg s language now freshId).2 =
      some (max ((cfg.morphTime + cfg.cooldownTime) * 1000 + 500) 2500) ∧
    ∀ language2, ∃ s2,
      animationTimerFire t cfg (languageChangeEffect t cfg s language now freshId).1
          language2 = some s2 ∧
      s2.shouldMorph = false ∧
      s2.isChanging = false ∧
      s2.texts = [t cfg.translationKey language2, t cfg.translationKey language2] ∧
      s2.animationTimeout = none := by
  unfold languageChangeEffect
  rw [if_neg (by simp [hchg]), if_pos hne, if_pos htxt]
  refine ⟨?_, ?_, ?_, ?_⟩
  · simp [scheduleAnimationTimeout]
  · simp [scheduleAnimationTimeout]
  · simp [getTotalAnimationDuration, MIN_ANIMATION_DURATION]
  · intro language2
    exact ⟨_, rfl, rfl, rfl, rfl, rfl⟩

theorem lmt_morph_cycle_witness :
    ((⟨false, ["Hello", "Hello"], "en", none, [], true, false, 0⟩ :
        LMTState).isChanging = false ∧
      (⟨false, ["Hello", "Hello"], "en", none, [], true, false, 0⟩ :
        LMTState).previousLanguage ≠ "es" ∧
      tSample cfgSample.translationKey
          (⟨false, ["Hello", "Hello"], "en", none, [], true, false, 0⟩ :
            LMTState).previousLanguage ≠
        tSample cfgSample.translationKey "es") ∧
    ((languageChangeEffect tSample cfgSample
        ⟨false, ["Hello", "Hello"], "en", none, [], true, false, 0⟩
        "es" 5000 7).1.texts =
      [tSample cfgSample.translationKey
          (⟨false, ["Hello", "Hello"], "en", none, [], true, false, 0⟩ :
            LMTState).previousLanguage,
        tSample cfgSample.translationKey "es"] ∧
      (languageChangeEffect tSample cfgSample
        ⟨false, ["Hello", "Hello"], "en", none, [], true, false, 0⟩
        "es" 5000 7).1.shouldMorph = true ∧
      (languageChangeEffect tSample cfgSample
        ⟨false, ["Hello", "Hello"], "en", none, [], true, false, 0⟩
        "es" 5000 7).2 =
        some (max ((cfgSample.morphTime + cfgSample.cooldownTime) * 1000 + 500) 2500) ∧
      ∀ language2, ∃ s2,
        animationTimerFire tSample cfgSample
            (languageChangeEffect tSample cfgSample
              ⟨false, ["Hello", "Hello"], "en", none, [], true, false, 0⟩
              "es" 5000 7).1 language2 = some s2 ∧
        s2.shouldMorph = false ∧
        s2.isChanging = false ∧
        s2.texts = [tSample cfgSample.translationKey language2,
          tSample cfgSample.translationKey language2] ∧
        s2.animationTimeout = none) :=
  ⟨⟨rfl, by decide, by decide⟩,
   lmt_morph_cycle tSample cfgSample
     ⟨false, ["Hello", "Hello"], "en", none, [], true, false, 0⟩
     "es" 5000 7 rfl (by decide) (by decide)⟩

/-- C4 counterexample: with identical resolved texts ("title" in both
locales under `tConst`) and distinct locales "en" ≠ "es", the change from
"en" to "es" indeed skips the morph, but the last-change timestamp is
updated as well (0 → 5000) — NOT only the last-seen locale reference. -/
theorem lmt_equalText_updates_timestamp :
    tConst cfgSample.translationKey "en" = tConst cfgSample.translationKey "es" ∧
    ("en" : String) ≠ "es" ∧
    (languageChangeEffect tConst cfgSample
        ⟨false, ["title", "title"], "en", none, [], true, false, 0⟩
        "es" 5000 7).1.shouldMorph = false ∧
    (languageChangeEffect tConst cfgSample
        ⟨false, ["title", "title"], "en", none, [], true, false, 0⟩
        "es" 5000 7).2 = none ∧
    (languageChangeEffect tConst cfgSample
        ⟨false, ["title", "title"], "en", none, [], true, false, 0⟩
        "es" 5000 7).1.previousLanguage = "es" ∧
    (languageChangeEffect tConst cfgSample
        ⟨false, ["title", "title"], "en", none, [], true, false, 0⟩
        "es" 5000 7).1.lastChangeTime ≠
      (⟨false, ["title", "title"], "en", none, [], true, false, 0⟩ :
        LMTState).lastChangeTime := by
  refine ⟨rfl, by decide, by decide, by decide, by decide, by decide⟩

/-- C4 as amended: for distinct locales with identical resolved texts, an
accepted change never enters Morphing (shouldMorph stays false), schedules
no completion timer, clears the in-flight guard, leaves the display pair
and timer bookkeeping unchanged, and updates the last-seen locale
reference AND the last-change timestamp. -/
theorem lmt_equalText_skip (t : String → String → String)
    (cfg : LMTConfig) (s : LMTState) (language : String) (now freshId : ℕ)
    (hchg : s.isChanging = false)
    (hne : s.previousLanguage ≠ language)
    (htxt : t cfg.translationKey s.previousLanguage = t cfg.translationKey language)
    (hmorph : s.shouldMorph = false) :
    (languageChangeEffect t cfg s language now freshId).1.shouldMorph = false ∧
    (languageChangeEffect t cfg s language now freshId).2 = none ∧
    (languageChangeEffect t cfg s language now freshId).1.isChanging = false ∧
    (languageChangeEffect t cfg s language now freshId).1.previousLanguage = language ∧
    (languageChangeEffect t cfg s language now freshId).1.lastChangeTime = now ∧
    (languageChangeEffect t cfg s language now freshId).1.texts = s.texts ∧
    (languageChangeEffect t cfg s language now freshId).1.animationTimeout =
      s.animationTimeout ∧
    (languageChangeEffect t cfg s language now freshId).1.pendingTimers =
      s.pendingTimers := by
  unfold languageChangeEffect
  simp [hchg, hne, htxt, hmorph]

theorem lmt_equalText_skip_witness :
    ((⟨false, ["title", "title"], "en", none, [], true, false, 0⟩ :
        LMTState).isChanging = false ∧
      (⟨false, ["title", "title"], "en", none, [], true, false, 0⟩ :
        LMTState).previousLanguage ≠ "es" ∧
      tConst cfgSample.translationKey
          (⟨false, ["title", "title"], "en", none, [], true, false, 0⟩ :
            LMTState).previousLanguage =
        tConst cfgSample.translationKey "es" ∧
      (⟨false, ["title", "title"], "en", none, [], true, false, 0⟩ :
        LMTState).shouldMorph = false) ∧
    ((languageChangeEffect tConst cfgSample
        ⟨false, ["title", "title"], "en", none, [], true, false, 0⟩
        "es" 5000 7).1.shouldMorph = false ∧
      (languageChangeEffect tConst cfgSample
        ⟨false, ["title", "title"], "en", none, [], true, false, 0⟩
        "es" 5000 7).2 = none ∧
      (languageChangeEffect tConst cfgSample
        ⟨false, ["title", "title"], "en", none, [], true, false, 0⟩
        "es" 5000 7).1.isChanging = false ∧
      (languageChangeEffect tConst cfgSample
        ⟨false, ["title", "title"], "en", none, [], true, false, 0⟩
        "es" 5000 7).1.previousLanguage = "es" ∧
      (languageChangeEffect tConst cfgSample
        ⟨false, ["title", "title"], "en", none, [], true, false, 0⟩
        "es" 5000 7).1.lastChangeTime = 5000 ∧
      (languageChangeEffect tConst cfgSample
        ⟨false, ["title", "title"], "en", none, [], true, false, 0⟩
        "es" 5000 7).1.texts =
        (⟨false, ["title", "title"], "en", none, [], true, false, 0⟩ :
          LMTState).texts ∧
      (languageChangeEffect tConst cfgSample
        ⟨false, ["title", "title"], "en", none, [], true, false, 0⟩
        "es" 5000 7).1.animationTimeout =
        (⟨false, ["title", "title"], "en", none, [], true, false, 0⟩ :
          LMTState).animationTimeout ∧
      (languageChangeEffect tConst cfgSample
        ⟨false, ["title", "title"], "en", none, [], true, false, 0⟩
        "es" 5000 7).1.pendingTimers =
        (⟨false, ["title", "title"], "en", none, [], true, false, 0⟩ :
          LMTState).pendingTimers) :=
  ⟨⟨rfl, by decide, rfl, rfl⟩,
   lmt_equalText_skip tConst cfgSample
     ⟨false, ["title", "title"], "en", none, [], true, false, 0⟩
     "es" 5000 7 rfl (by decide) rfl rfl⟩

/-- C8: unmounting cancels any pending completion timer — after the
cleanup the ref is null, no timer of this instance remains pending in the
environment, the completion callback can no longer be delivered, and no
other component of the state is mutated. -/
theorem lmt_unmount_cancels (t : String → String → String) (cfg : LMTConfig)
    (s : LMTState) (language : String) (h : timerRefInv s) :
    (unmountCleanup s).animationTimeout = none ∧
    (unmountCleanup s).pendingTimers = [] ∧
    animationTimerFire t cfg (unmountCleanup s) language = none ∧
    (unmountCleanup s).shouldMorph = s.shouldMorph ∧
    (unmountCleanup s).texts = s.texts ∧
    (unmountCleanup s).previousLanguage = s.previousLanguage ∧
    (unmountCleanup s).initialized = s.initialized ∧
    (unmountCleanup s).isChanging = s.isChanging ∧
    (unmountCleanup s).lastChangeTime = s.lastChangeTime := by
  obtain ⟨hp, ha⟩ := clearAnimationTimeout_of_inv s h
  unfold unmountCleanup
  refine ⟨ha, hp, ?_, by simp, by simp, by simp, by simp, by simp, by simp⟩
  unfold animationTimerFire
  rw [ha]

theorem lmt_unmount_cancels_witness :
    timerRefInv (⟨true, ["Hello", "Hola"], "es", some 3, [3], true, true, 1000⟩ :
      LMTState) ∧
    ((unmountCleanup
        ⟨true, ["Hello", "Hola"], "es", some 3, [3], true, true, 1000⟩).animationTimeout
        = none ∧
      (unmountCleanup
        ⟨true, ["Hello", "Hola"], "es", some 3, [3], true, true, 1000⟩).pendingTimers
        = [] ∧
      animationTimerFire tSample cfgSample
        (unmountCleanup ⟨true, ["Hello", "Hola"], "es", some 3, [3], true, true, 1000⟩)
        "es" = none ∧
      (unmountCleanup
        ⟨true, ["Hello", "Hola"], "es", some 3, [3], true, true, 1000⟩).shouldMorph =
        (⟨true, ["Hello", "Hola"], "es", some 3, [3], true, true, 1000⟩ :
          LMTState).shouldMorph ∧
      (unmountCleanup
        ⟨true, ["Hello", "Hola"], "es", some 3, [3], true, true, 1000⟩).texts =
        (⟨true, ["Hello", "Hola"], "es", some 3, [3], true, true, 1000⟩ :
          LMTState).texts ∧
      (unmountCleanup
        ⟨true, ["Hello", "Hola"], "es", some 3, [3], true, true, 1000⟩).previousLanguage =
        (⟨true, ["Hello", "Hola"], "es", some 3, [3], true, true, 1000⟩ :
          LMTState).previousLanguage ∧
      (unmountCleanup
        ⟨true, ["Hello", "Hola"], "es", some 3, [3], true, true, 1000⟩).initialized =
        (⟨true, ["Hello", "Hola"], "es", some 3, [3], true, true, 1000⟩ :
          LMTState).initialized ∧
      (unmountCleanup
        ⟨true, ["Hello", "Hola"], "es", some 3, [3], true, true, 1000⟩).isChanging =
        (⟨true, ["Hello", "Hola"], "es", some 3, [3], true, true, 1000⟩ :
          LMTState).isChanging ∧
      (unmountCleanup
        ⟨true, ["Hello", "Hola"], "es", some 3, [3], true, true, 1000⟩).lastChangeTime =
        (⟨true, ["Hello", "Hola"], "es", some 3, [3], true, true, 1000⟩ :
          LMTState).lastChangeTime) :=
  ⟨by decide,
   lmt_unmount_cancels tSample cfgSample
     ⟨true, ["Hello", "Hola"], "es", some 3, [3], true, true, 1000⟩ "es" (by decide)⟩

/-- C9: within one instance at most one completion callback is pending at
a time — the bookkeeping invariant (the environment holds exactly the
timer the ref points to, hence at most one) is preserved by every step,
and whenever the change effect schedules a new timer, the pending set
afterwards consists of the fresh timer alone, the prior one having been
cancelled and cleared first. -/
theorem lmt_at_most_one_pending (t : String → String → String) (cfg : LMTConfig)
    (s : LMTState) (language : String) (now freshId : ℕ) (h : timerRefInv s) :
    timerRefInv (initEffect t cfg s language) ∧
    timerRefInv (languageChangeEffect t cfg s language now freshId).1 ∧
    (languageChangeEffect t cfg s language now freshId).1.pendingTimers.length ≤ 1 ∧
    ((languageChangeEffect t cfg s language now freshId).2.isSome = true →
      (languageChangeEffect t cfg s language now freshId).1.pendingTimers = [freshId]) ∧
    (∀ s2, animationTimerFire t cfg s language = some s2 → timerRefInv s2) ∧
    timerRefInv (unmountCleanup s) := by
  obtain ⟨sm, tx, pl, ao, pt, ini, ch, lt⟩ := s
  cases ao with
  | none =>
    have hp : pt = [] := h
    subst hp
    refine ⟨?_, ?_, ?_, ?_, ?_, ?_⟩ <;>
      simp only [initEffect, languageChangeEffect, scheduleAnimationTimeout,
        clearAnimationTimeout, animationTimerFire, unmountCleanup] <;>
      (try split_ifs) <;>
      simp_all [timerRefInv]
  | some i =>
    have hp : pt = [i] := h
    subst hp
    refine ⟨?_, ?_, ?_, ?_, ?_, ?_⟩ <;>
      simp only [initEffect, languageChangeEffect, scheduleAnimationTimeout,
        clearAnimationTimeout, animationTimerFire, unmountCleanup] <;>
      (try split_ifs) <;>
      simp_all [timerRefInv]

theorem lmt_at_most_one_pending_witness :
    timerRefInv (⟨true, ["Hello", "Hola"], "es", some 3, [3], true, true, 1000⟩ :
      LMTState) ∧
    (timerRefInv (initEffect tSample cfgSample
        ⟨true, ["Hello", "Hola"], "es", some 3, [3], true, true, 1000⟩ "es") ∧
      timerRefInv (languageChangeEffect tSample cfgSample
        ⟨true, ["Hello", "Hola"], "es", some 3, [3], true, true, 1000⟩ "es" 9000 7).1 ∧
      (languageChangeEffect tSample cfgSample
        ⟨true, ["Hello", "Hola"], "es", some 3, [3], true, true, 1000⟩
        "es" 9000 7).1.pendingTimers.length ≤ 1 ∧
      ((languageChangeEffect tSample cfgSample
          ⟨true, ["Hello", "Hola"], "es", some 3, [3], true, true, 1000⟩
          "es" 9000 7).2.isSome = true →
        (languageChangeEffect tSample cfgSample
          ⟨true, ["Hello", "Hola"], "es", some 3, [3], true, true, 1000⟩
          "es" 9000 7).1.pendingTimers = [7]) ∧
      (∀ s2, animationTimerFire tSample cfgSample
          ⟨true, ["Hello", "Hola"], "es", some 3, [3], true, true, 1000⟩ "es" = some s2 →
        timerRefInv s2) ∧
      timerRefInv (unmountCleanup
        ⟨true, ["Hello", "Hola"], "es", some 3, [3], true, true, 1000⟩)) :=
  ⟨by decide,
   lmt_at_most_one_pending tSample cfgSample
     ⟨true, ["Hello", "Hola"], "es", some 3, [3], true, true, 1000⟩ "es" 9000 7
     (by decide)⟩

/-- C10: `PageTransition` keys its rendered subtree by the current path
and selects `AnimatePresence`'s disjoint `"wait"` mode; under the modelled
wait-mode sequencing, a path change from `a` to `b` first exit-animates
the old subtree alone, mounts the new subtree only once that exit
completes, and at no phase of the transition are the old and new subtrees
simultaneously visible. -/
theorem pageTransition_wait_no_overlap (a b : String) (hab : a ≠ b) :
    (PageTransition b).mode = PresenceMode.wait ∧
    (PageTransition b).childKey = b ∧
    presenceKeyChange (PageTransition b).mode (.settled a) b =
      PresencePhase.exiting a b ∧
    presenceVisible (presenceKeyChange (PageTransition b).mode (.settled a) b) = [a] ∧
    presenceExitComplete (presenceKeyChange (PageTransition b).mode (.settled a) b) =
      PresencePhase.entering b ∧
    presenceVisible
      (presenceExitComplete
        (presenceKeyChange (PageTransition b).mode (.settled a) b)) = [b] ∧
    ∀ p ∈ [PresencePhase.settled a,
        presenceKeyChange (PageTransition b).mode (.settled a) b,
        presenceExitComplete (presenceKeyChange (PageTransition b).mode (.settled a) b),
        presenceEnterComplete
          (presenceExitComplete
            (presenceKeyChange (PageTransition b).mode (.settled a) b))],
      ¬(a ∈ presenceVisible p ∧ b ∈ presenceVisible p) := by
  have hba : b ≠ a := Ne.symm hab
  refine ⟨rfl, rfl, ?_, ?_, ?_, ?_, ?_⟩
  · simp [PageTransition, presenceKeyChange, hab]
  · simp [PageTransition, presenceKeyChange, hab, presenceVisible]
  · simp [PageTransition, presenceKeyChange, hab, presenceExitComplete]
  · simp [PageTransition, presenceKeyChange, hab, presenceExitComplete, presenceVisible]
  · intro p hp
    simp only [PageTransition, presenceKeyChange, presenceExitComplete,
      presenceEnterComplete, if_neg hab, List.mem_cons, List.not_mem_nil,
      or_false] at hp
    rcases hp with h1 | h1 | h1 | h1 <;> subst h1 <;>
      simp [presenceVisible, hab, hba]

theorem pageTransition_wait_no_overlap_witness :
    ("/a" : String) ≠ "/b" ∧
    ((PageTransition "/b").mode = PresenceMode.wait ∧
      (PageTransition "/b").childKey = "/b" ∧
      presenceKeyChange (PageTransition "/b").mode (.settled "/a") "/b" =
        PresencePhase.exiting "/a" "/b" ∧
      presenceVisible (presenceKeyChange (PageTransition "/b").mode (.settled "/a") "/b")
        = ["/a"] ∧
      presenceExitComplete
        (presenceKeyChange (PageTransition "/b").mode (.settled "/a") "/b") =
        PresencePhase.entering "/b" ∧
      presenceVisible
        (presenceExitComplete
          (presenceKeyChange (PageTransition "/b").mode (.settled "/a") "/b")) = ["/b"] ∧
      ∀ p ∈ [PresencePhase.settled "/a",
          presenceKeyChange (PageTransition "/b").mode (.settled "/a") "/b",
          presenceExitComplete
            (presenceKeyChange (PageTransition "/b").mode (.settled "/a") "/b"),
          presenceEnterComplete
            (presenceExitComplete
              (presenceKeyChange (PageTransition "/b").mode (.settled "/a") "/b"))],
        ¬("/a" ∈ presenceVisible p ∧ "/b" ∈ presenceVisible p)) :=
  ⟨by decide, pageTransition_wait_no_overlap "/a" "/b" (by decide)⟩

end Portfolio
